import Mathlib

/-!
Shallow embedding of the TPM device-handle lifecycle manager from
`tpm/info.go` (package `tpm`): the `Version` / `Manufacturer` helpers, the
`TPM` struct with its options and constructor, and the `Open` / `Close`
lifecycle with reentrancy markers, backend selection and teardown.

External collaborators (the go-attestation library, the OS-level device
open path, close operations on live sessions and channels) are modelled as
an opaque environment `Env` of functions; the pure code of the repository
is translated directly.
-/

namespace Crypto.TPM

/-- Errors are modelled by their message strings, as built by `fmt.Errorf`. -/
abbrev Err := String

/-- `fmt.Errorf` with a trailing `%w` verb: prefixes the wrapped error. -/
def wrapErr (msg : String) (e : Err) : Err := msg ++ ": " ++ e

/-- `attest.TPMVersion` (a `uint8` enumeration in go-attestation). -/
abbrev TPMVersion := Nat

/-- `attest.TPMVersion12` (value 1 in go-attestation's iota enumeration). -/
def TPMVersion12 : TPMVersion := 1

/-- `attest.TPMVersion20` (value 2 in go-attestation's iota enumeration). -/
def TPMVersion20 : TPMVersion := 2

/-- `type Version attest.TPMVersion` from `tpm/info.go`. -/
abbrev Version := TPMVersion

/-- A Go `[]byte` value, modelled as the string of its bytes. -/
abbrev Bytes := String

/-- Model of `encoding/json.Marshal` applied to a plain Go string without
characters needing escapes: it quotes the string and never fails. -/
def jsonMarshalString (s : String) : Except Err Bytes :=
  Except.ok ("\"" ++ s ++ "\"")

/-- `Version.String` from `tpm/info.go`: switch on the two known versions,
default `"unknown"`. -/
def Version.String (v : Version) : String :=
  if v = TPMVersion12 then "TPM 1.2"
  else if v = TPMVersion20 then "TPM 2.0"
  else "unknown"

/-- `Version.MarshalJSON` from `tpm/info.go`: switch on the two known
versions, default `"unknown"`, then `json.Marshal` the chosen string. -/
def Version.MarshalJSON (v : Version) : Except Err Bytes :=
  let s :=
    if v = TPMVersion12 then "1.2"
    else if v = TPMVersion20 then "2.0"
    else "unknown"
  jsonMarshalString s

/-- `manufacturer.ID` (an integer manufacturer identifier). -/
abbrev ManufacturerID := Nat

/-- `Manufacturer` from `tpm/info.go`. -/
structure Manufacturer where
  ID : ManufacturerID
  Name : String
  ASCII : String
  Hex : String
deriving DecidableEq, Repr

/-- `GetManufacturerByID` from `tpm/info.go`. The helpers
`manufacturer.GetEncodings` and `manufacturer.GetNameByASCII` live in the
`tpm/manufacturer` package, outside the shown sources, so they are taken
as opaque function parameters: `getEncodings` returns the (ASCII, hex)
encodings of an ID and `getNameByASCII` resolves an ASCII code to a name. -/
def GetManufacturerByID (getEncodings : ManufacturerID → String × String)
    (getNameByASCII : String → String) (id : ManufacturerID) : Manufacturer :=
  let ascii := (getEncodings id).1
  let hexa := (getEncodings id).2
  let name := getNameByASCII ascii
  { Name := name, ASCII := ascii, ID := id, Hex := hexa }

/-- Modelled from the spec: `storage.TPMStore` (package `tpm/storage`, not
among the shown sources). `blackHole` is `storage.BlackHole()`, the no-op
store that persists nothing; `custom` is any other store, characterised by
the outcome of its `Load` method. -/
inductive TPMStore where
  | blackHole
  | custom (loadResult : Option Err)
deriving DecidableEq, Repr

/-- Modelled from the spec: `Load` of the no-op black-hole store reads no
data and succeeds; a custom store returns its own result. -/
def TPMStore.Load : TPMStore → Option Err
  | .blackHole => none
  | .custom r => r

/-- An in-process simulator instance (`simulator.Simulator`), identified by
an abstract identity so that instance preservation can be stated. -/
abbrev Simulator := Nat

/-- A live attestation-library session (`attest.TPM`), by identity. -/
abbrev AttestTPM := Nat

/-- The `io.ReadWriteCloser` stored in the `rwc` field: either a raw device
channel or the simulator aliased as the raw channel (`t.rwc = t.simulator`). -/
inductive RWC where
  | raw (h : Nat)
  | sim (s : Simulator)
deriving DecidableEq, Repr

/-- `attest.OpenConfig`: protocol version plus optional command channel. -/
structure OpenConfig where
  tpmVersion : TPMVersion
  commandChannel : Option Simulator
deriving DecidableEq, Repr

/-- The `TPM` struct from `tpm/tpm.go`. The `sync.RWMutex` is modelled by
the boolean `lockHeld` recording whether the exclusive lock is held. -/
structure TPM where
  deviceName : String
  attestConfig : OpenConfig
  attestTPM : Option AttestTPM
  rwc : Option RWC
  lockHeld : Bool
  store : TPMStore
  simulator : Option Simulator
deriving DecidableEq, Repr

/-- `NewTPMOption`: a fallible mutation of the handle under construction. -/
abbrev NewTPMOption := TPM → Except Err TPM

/-- `WithDeviceName`. -/
def WithDeviceName (name : String) : NewTPMOption :=
  fun t => Except.ok { t with deviceName := name }

/-- `WithStore`. A Go `nil` store argument is modelled by `none`; it is
replaced by the black-hole store to prevent nil storage. -/
def WithStore (store : Option TPMStore) : NewTPMOption :=
  fun t =>
    let s :=
      match store with
      | none => TPMStore.blackHole
      | some s => s
    Except.ok { t with store := s }

/-- `New`: default configuration (TPM 2.0 attestation, black-hole store),
then the options applied in order, any option failure aborting. -/
def New (opts : List NewTPMOption) : Except Err TPM :=
  let tpm : TPM :=
    { deviceName := ""
      attestConfig := { tpmVersion := TPMVersion20, commandChannel := none }
      attestTPM := none
      rwc := none
      lockHeld := false
      store := TPMStore.blackHole
      simulator := none }
  opts.foldlM (fun t o => o t) tpm

/-- Modelled from the spec: the call-context markers threaded through every
operation (defined by the `tpm` package's context helpers, not among the
shown sources): the internal-call marker and the raw-transport (go-tpm)
marker. -/
structure Ctx where
  internalCall : Bool
  goTPMCall : Bool
deriving DecidableEq, Repr

/-- Modelled from the spec: reads the internal-call marker of the context. -/
def isInternalCall (ctx : Ctx) : Bool := ctx.internalCall

/-- Modelled from the spec: reads the raw-transport marker of the context. -/
def isGoTPMCall (ctx : Ctx) : Bool := ctx.goTPMCall

/-- The opaque external collaborators: `attest.OpenTPM`, the OS-level
`open.TPM` device-open path, and the close operations of live sessions and
channels (whose results `Close` discards). -/
structure Env where
  attestOpenTPM : OpenConfig → Except Err AttestTPM
  openTPM : String → Except Err RWC
  attestClose : AttestTPM → Option Err
  rwcClose : RWC → Option Err

/-- `TPM.Open` from `tpm/tpm.go`: no-op on the internal-call marker;
otherwise lock, load the store (propagating failure with the lock still
held), then select a backend: simulator first (establishing a session over
it only if none is populated, then aliasing it as the raw channel), else
the raw device path on the go-tpm marker, else an attestation session from
`attestConfig`. Returns the new handle state and the `error` result. -/
def TPM.Open (env : Env) (ctx : Ctx) (t : TPM) : TPM × Option Err :=
  if isInternalCall ctx then (t, none)
  else
    let tl := { t with lockHeld := true }
    match TPMStore.Load tl.store with
    | some e => (tl, some e)
    | none =>
      match tl.simulator with
      | some sim =>
        match tl.attestTPM with
        | none =>
          match env.attestOpenTPM { tpmVersion := TPMVersion20, commandChannel := some sim } with
          | Except.error e => (tl, some (wrapErr "failed opening attest.TPM" e))
          | Except.ok a => ({ tl with attestTPM := some a, rwc := some (RWC.sim sim) }, none)
        | some _ => ({ tl with rwc := some (RWC.sim sim) }, none)
      | none =>
        if isGoTPMCall ctx then
          match env.openTPM tl.deviceName with
          | Except.error e => (tl, some (wrapErr "failed opening TPM" e))
          | Except.ok rwc => ({ tl with rwc := some rwc }, none)
        else
          match env.attestOpenTPM tl.attestConfig with
          | Except.error e => (tl, some (wrapErr "failed opening TPM" e))
          | Except.ok a => ({ tl with attestTPM := some a }, none)

/-- An observable backend-close invocation performed by `Close`, recording
the closed object and the discarded error result of its close operation. -/
inductive CloseEvent where
  | attest (a : AttestTPM) (discarded : Option Err)
  | channel (r : RWC) (discarded : Option Err)
deriving DecidableEq, Repr

/-- `TPM.Close` from `tpm/tpm.go`: no-op on the internal-call marker; with
a simulator configured, only the lock is released; otherwise the populated
backends are closed (their errors discarded) and cleared in order —
attestation session first, then raw channel — and the lock is released.
Returns the new state and the list of close invocations performed. -/
def TPM.Close (env : Env) (ctx : Ctx) (t : TPM) : TPM × List CloseEvent :=
  if isInternalCall ctx then (t, [])
  else
    match t.simulator with
    | some _ => ({ t with lockHeld := false }, [])
    | none =>
      let ev1 : List CloseEvent :=
        match t.attestTPM with
        | some a => [CloseEvent.attest a (env.attestClose a)]
        | none => []
      let ev2 : List CloseEvent :=
        match t.rwc with
        | some r => [CloseEvent.channel r (env.rwcClose r)]
        | none => []
      ({ t with attestTPM := none, rwc := none, lockHeld := false }, ev1 ++ ev2)

/-- One lifecycle call in a sequence: an `Open` or a `Close`, each with its
own call-context. -/
inductive TPMOp where
  | openOp (ctx : Ctx)
  | closeOp (ctx : Ctx)
deriving DecidableEq, Repr

/-- Run a sequence of `Open` / `Close` calls, accumulating every
backend-close invocation performed along the way. -/
def runOps (env : Env) : List TPMOp → TPM → TPM × List CloseEvent
  | [], t => (t, [])
  | TPMOp.openOp ctx :: rest, t => runOps env rest (TPM.Open env ctx t).1
  | TPMOp.closeOp ctx :: rest, t =>
    let p := TPM.Close env ctx t
    let q := runOps env rest p.1
    (q.1, p.2 ++ q.2)

/-- Whether a close invocation closed the simulator (through its aliasing
as the raw channel). -/
def closesSimulator : CloseEvent → Bool
  | CloseEvent.channel (RWC.sim _) _ => true
  | _ => false

/-- A concrete environment whose external operations all succeed, used to
instantiate the lifecycle theorems. -/
def envW : Env :=
  { attestOpenTPM := fun _ => Except.ok 11
    openTPM := fun _ => Except.ok (RWC.raw 5)
    attestClose := fun _ => none
    rwcClose := fun _ => none }

/-- A call-context with neither the internal-call nor the raw marker. -/
def ctxPlainW : Ctx := { internalCall := false, goTPMCall := false }

/-- A call-context carrying the internal-call marker. -/
def ctxInternalW : Ctx := { internalCall := true, goTPMCall := false }

/-- A call-context carrying the raw-transport (go-tpm) marker. -/
def ctxRawW : Ctx := { internalCall := false, goTPMCall := true }

/-- A freshly constructed handle with no simulator and the default store. -/
def tW : TPM :=
  { deviceName := "/dev/tpmrm0"
    attestConfig := { tpmVersion := TPMVersion20, commandChannel := none }
    attestTPM := none
    rwc := none
    lockHeld := false
    store := TPMStore.blackHole
    simulator := none }

/-- A handle whose store fails to load. -/
def tFailW : TPM := { tW with store := TPMStore.custom (some "load failed") }

/-- A handle constructed with a simulator attached. -/
def tSimW : TPM := { tW with simulator := some 7 }

/-- A simulator-backed handle after a successful non-reentrant `Open`. -/
def tSimOpenW : TPM :=
  { tSimW with lockHeld := true, attestTPM := some 11, rwc := some (RWC.sim 7) }

/-- A non-simulator handle after a successful attestation-backend `Open`. -/
def tOpenAttestW : TPM := { tW with lockHeld := true, attestTPM := some 11 }

/-- Two full non-reentrant `Open` / `Close` cycles. -/
def opsW : List TPMOp :=
  [TPMOp.openOp ctxPlainW, TPMOp.closeOp ctxPlainW,
   TPMOp.openOp ctxPlainW, TPMOp.closeOp ctxPlainW]

lemma open_simulator_eq (env : Env) (ctx : Ctx) (t : TPM) :
    (TPM.Open env ctx t).1.simulator = t.simulator := by
  unfold TPM.Open
  dsimp only
  repeat' split
  all_goals rfl

lemma close_simulator_eq (env : Env) (ctx : Ctx) (t : TPM) :
    (TPM.Close env ctx t).1.simulator = t.simulator := by
  unfold TPM.Close
  repeat' split
  all_goals rfl

lemma close_simulator_no_events (env : Env) (ctx : Ctx) (t : TPM) (sim : Simulator)
    (hs : t.simulator = some sim) : (TPM.Close env ctx t).2 = [] := by
  unfold TPM.Close
  split
  · rfl
  · rw [hs]

/-- C1: with the internal-call marker set, `Open` returns success at once,
leaving the handle (lock state, store, every backend field) untouched and
independent of the environment and store, and `Close` returns at once with
no unlocking, no teardown and no close invocation. -/
theorem tpm_reentrant_noop (env : Env) (ctx : Ctx) (t : TPM)
    (h : isInternalCall ctx = true) :
    TPM.Open env ctx t = (t, none) ∧ TPM.Close env ctx t = (t, []) := by
  constructor <;> simp [TPM.Open, TPM.Close, h]

theorem tpm_reentrant_noop_witness :
    TPM.Open envW ctxInternalW tFailW = (tFailW, none) ∧
    TPM.Close envW ctxInternalW tFailW = (tFailW, []) :=
  tpm_reentrant_noop envW ctxInternalW tFailW rfl

/-- C2: non-reentrant `Open` backend selection priority — a simulator is
used first (a session over it is established only when none is populated,
and the simulator is aliased as the raw channel); else the raw-transport
marker selects the raw device path to `deviceName`, stored in `rwc`; else
an attestation session from `attestConfig` is stored in `attestTPM`. -/
theorem tpm_open_backend_selection (env : Env) (ctx : Ctx) (t : TPM)
    (hni : isInternalCall ctx = false) (hload : TPMStore.Load t.store = none) :
    (∀ sim a, t.simulator = some sim → t.attestTPM = none →
      env.attestOpenTPM { tpmVersion := TPMVersion20, commandChannel := some sim } =
        Except.ok a →
      TPM.Open env ctx t =
        ({ t with lockHeld := true, attestTPM := some a, rwc := some (RWC.sim sim) }, none)) ∧
    (∀ sim a0, t.simulator = some sim → t.attestTPM = some a0 →
      TPM.Open env ctx t = ({ t with lockHeld := true, rwc := some (RWC.sim sim) }, none)) ∧
    (∀ r, t.simulator = none → isGoTPMCall ctx = true →
      env.openTPM t.deviceName = Except.ok r →
      TPM.Open env ctx t = ({ t with lockHeld := true, rwc := some r }, none)) ∧
    (∀ a, t.simulator = none → isGoTPMCall ctx = false →
      env.attestOpenTPM t.attestConfig = Except.ok a →
      TPM.Open env ctx t = ({ t with lockHeld := true, attestTPM := some a }, none)) := by
  refine ⟨?_, ?_, ?_, ?_⟩
  · intro sim a hs ha henv
    simp [TPM.Open, hni, hload, hs, ha, henv]
  · intro sim a0 hs ha
    simp [TPM.Open, hni, hload, hs, ha]
  · intro r hs hgo henv
    simp [TPM.Open, hni, hload, hs, hgo, henv]
  · intro a hs hgo henv
    simp [TPM.Open, hni, hload, hs, hgo, henv]

theorem tpm_open_backend_selection_witness :
    TPM.Open envW ctxRawW tW = ({ tW with lockHeld := true, rwc := some (RWC.raw 5) }, none) :=
  (tpm_open_backend_selection envW ctxRawW tW rfl rfl).2.2.1 (RWC.raw 5) rfl rfl rfl

/-- C3: when the store load fails during a non-reentrant `Open`, the load
error itself is returned, no backend field is modified, and the lock that
was acquired before the load remains held on this return path. -/
theorem tpm_open_load_failure_keeps_lock (env : Env) (ctx : Ctx) (t : TPM) (e : Err)
    (hni : isInternalCall ctx = false) (hload : TPMStore.Load t.store = some e) :
    TPM.Open env ctx t = ({ t with lockHeld := true }, some e) := by
  simp [TPM.Open, hni, hload]

theorem tpm_open_load_failure_keeps_lock_witness :
    TPM.Open envW ctxPlainW tFailW = ({ tFailW with lockHeld := true }, some "load failed") :=
  tpm_open_load_failure_keeps_lock envW ctxPlainW tFailW "load failed" rfl rfl

/-- C4: starting from a closed non-simulator handle, a successful
non-reentrant `Open` populates exactly one of `attestTPM` / `rwc`, and the
matching non-reentrant `Close` leaves both empty; the two non-simulator
backends are never populated simultaneously. -/
theorem tpm_open_close_backend_exclusive (env env2 : Env) (ctx ctx2 : Ctx) (t : TPM)
    (hni : isInternalCall ctx = false) (hni2 : isInternalCall ctx2 = false)
    (hs : t.simulator = none) (ha : t.attestTPM = none) (hr : t.rwc = none)
    (hok : (TPM.Open env ctx t).2 = none) :
    (((TPM.Open env ctx t).1.attestTPM ≠ none ∧ (TPM.Open env ctx t).1.rwc = none) ∨
      ((TPM.Open env ctx t).1.attestTPM = none ∧ (TPM.Open env ctx t).1.rwc ≠ none)) ∧
    (TPM.Close env2 ctx2 (TPM.Open env ctx t).1).1.attestTPM = none ∧
    (TPM.Close env2 ctx2 (TPM.Open env ctx t).1).1.rwc = none := by
  cases hload : TPMStore.Load t.store with
  | some e => simp [TPM.Open, hni, hload] at hok
  | none =>
    cases hgo : isGoTPMCall ctx with
    | true =>
      cases henv : env.openTPM t.deviceName with
      | error e => simp [TPM.Open, hni, hs, hload, hgo, henv] at hok
      | ok r =>
        refine ⟨Or.inr ⟨?_, ?_⟩, ?_, ?_⟩ <;>
          simp [TPM.Open, TPM.Close, hni, hni2, hs, ha, hr, hload, hgo, henv]
    | false =>
      cases henv : env.attestOpenTPM t.attestConfig with
      | error e => simp [TPM.Open, hni, hs, hload, hgo, henv] at hok
      | ok a =>
        refine ⟨Or.inl ⟨?_, ?_⟩, ?_, ?_⟩ <;>
          simp [TPM.Open, TPM.Close, hni, hni2, hs, ha, hr, hload, hgo, henv]

theorem tpm_open_close_backend_exclusive_witness :
    (((TPM.Open envW ctxPlainW tW).1.attestTPM ≠ none ∧
        (TPM.Open envW ctxPlainW tW).1.rwc = none) ∨
      ((TPM.Open envW ctxPlainW tW).1.attestTPM = none ∧
        (TPM.Open envW ctxPlainW tW).1.rwc ≠ none)) ∧
    (TPM.Close envW ctxPlainW (TPM.Open envW ctxPlainW tW).1).1.attestTPM = none ∧
    (TPM.Close envW ctxPlainW (TPM.Open envW ctxPlainW tW).1).1.rwc = none :=
  tpm_open_close_backend_exclusive envW envW ctxPlainW ctxPlainW tW rfl rfl rfl rfl rfl rfl

/-- C5: non-reentrant `Close` on a handle with a simulator only releases
the exclusive lock: no close operation is invoked on anything (in
particular not on the simulator) and `attestTPM` / `rwc` are unchanged. -/
theorem tpm_close_simulator_unlock_only (env : Env) (ctx : Ctx) (t : TPM) (sim : Simulator)
    (hni : isInternalCall ctx = false) (hs : t.simulator = some sim) :
    TPM.Close env ctx t = ({ t with lockHeld := false }, []) := by
  simp [TPM.Close, hni, hs]

theorem tpm_close_simulator_unlock_only_witness :
    TPM.Close envW ctxPlainW tSimOpenW = ({ tSimOpenW with lockHeld := false }, []) :=
  tpm_close_simulator_unlock_only envW ctxPlainW tSimOpenW 7 rfl rfl

/-- C6: non-reentrant `Close` on a non-simulator handle closes and clears
each populated backend (attestation session first, then raw channel),
releases the lock, and returns no error to the caller — the recorded close
results are discarded, and the final state is the same for every
environment, i.e. regardless of whether the backend close operations
fail. -/
theorem tpm_close_teardown_swallows_errors (env : Env) (ctx : Ctx) (t : TPM)
    (hni : isInternalCall ctx = false) (hs : t.simulator = none) :
    TPM.Close env ctx t =
      ({ t with attestTPM := none, rwc := none, lockHeld := false },
        (match t.attestTPM with
          | some a => [CloseEvent.attest a (env.attestClose a)]
          | none => []) ++
        (match t.rwc with
          | some r => [CloseEvent.channel r (env.rwcClose r)]
          | none => [])) := by
  simp [TPM.Close, hni, hs]

theorem tpm_close_teardown_swallows_errors_witness :
    TPM.Close envW ctxPlainW tOpenAttestW =
      ({ tOpenAttestW with attestTPM := none, rwc := none, lockHeld := false },
        [CloseEvent.attest 11 none]) :=
  tpm_close_teardown_swallows_errors envW ctxPlainW tOpenAttestW rfl rfl

/-- C7: over any sequence of `Open` / `Close` calls on a handle whose
simulator is set, the simulator field is never assigned, cleared or
replaced, and no close invocation ever targets the simulator, so every
cycle observes the identical simulator instance. -/
theorem tpm_simulator_identity_preserved (env : Env) (ops : List TPMOp) (t : TPM)
    (sim : Simulator) (hs : t.simulator = some sim) :
    (runOps env ops t).1.simulator = some sim ∧
    ((runOps env ops t).2.all fun e => !closesSimulator e) = true := by
  induction ops generalizing t with
  | nil => exact ⟨hs, rfl⟩
  | cons op rest ih =>
    cases op with
    | openOp ctx =>
      have h1 : (TPM.Open env ctx t).1.simulator = some sim := by
        rw [open_simulator_eq]; exact hs
      simpa [runOps] using ih _ h1
    | closeOp ctx =>
      have h1 : (TPM.Close env ctx t).1.simulator = some sim := by
        rw [close_simulator_eq]; exact hs
      have h2 := close_simulator_no_events env ctx t sim hs
      have ih2 := ih _ h1
      refine ⟨?_, ?_⟩
      · simpa [runOps] using ih2.1
      · simp [runOps, h2, ih2.2]

theorem tpm_simulator_identity_preserved_witness :
    (runOps envW opsW tSimW).1.simulator = some 7 ∧
    ((runOps envW opsW tSimW).2.all fun e => !closesSimulator e) = true :=
  tpm_simulator_identity_preserved envW opsW tSimW 7 rfl

/-- C8: `New` with no options yields the no-op black-hole store (never a
nil store) and an attestation configuration selecting TPM protocol version
2.0; `WithStore` applied to a nil store also substitutes the black-hole
store. -/
theorem tpm_new_defaults :
    New [] = Except.ok
      { deviceName := ""
        attestConfig := { tpmVersion := TPMVersion20, commandChannel := none }
        attestTPM := none
        rwc := none
        lockHeld := false
        store := TPMStore.blackHole
        simulator := none } ∧
    (∀ t : TPM, WithStore none t = Except.ok { t with store := TPMStore.blackHole }) :=
  ⟨rfl, fun _ => rfl⟩

/-- C9: `Version.String` returns exactly `"TPM 1.2"` for `TPMVersion12`,
`"TPM 2.0"` for `TPMVersion20` and `"unknown"` for every other value, and
`Version.MarshalJSON` always succeeds with a nil error, returning the JSON
string `"1.2"`, `"2.0"` or `"unknown"` under the same case split. -/
theorem version_string_marshal_cases (v : Version) :
    (v = TPMVersion12 →
      Version.String v = "TPM 1.2" ∧ Version.MarshalJSON v = Except.ok "\"1.2\"") ∧
    (v = TPMVersion20 →
      Version.String v = "TPM 2.0" ∧ Version.MarshalJSON v = Except.ok "\"2.0\"") ∧
    (v ≠ TPMVersion12 → v ≠ TPMVersion20 →
      Version.String v = "unknown" ∧ Version.MarshalJSON v = Except.ok "\"unknown\"") := by
  refine ⟨?_, ?_, ?_⟩
  · rintro rfl; exact ⟨rfl, rfl⟩
  · rintro rfl; exact ⟨rfl, rfl⟩
  · intro h1 h2
    constructor <;> simp [Version.String, Version.MarshalJSON, jsonMarshalString, h1, h2]

theorem version_string_marshal_cases_witness :
    Version.String 0 = "unknown" ∧ Version.MarshalJSON 0 = Except.ok "\"unknown\"" :=
  (version_string_marshal_cases 0).2.2 (by decide) (by decide)

/-- C10: `GetManufacturerByID` returns a `Manufacturer` whose `ID` field is
exactly the input ID, for every behaviour of the encoding and name lookup
helpers — the lookup populates `Name`, `ASCII` and `Hex` from those helpers
but never alters the identifier it was given. -/
theorem get_manufacturer_by_id_fields (ge : ManufacturerID → String × String)
    (gn : String → String) (id : ManufacturerID) :
    (GetManufacturerByID ge gn id).ID = id ∧
    (GetManufacturerByID ge gn id).Name = gn (ge id).1 ∧
    (GetManufacturerByID ge gn id).ASCII = (ge id).1 ∧
    (GetManufacturerByID ge gn id).Hex = (ge id).2 :=
  ⟨rfl, rfl, rfl, rfl⟩

end Crypto.TPM
